import Mathlib

/-!
Verification development for the coding workflow orchestrator
(backend/testing.py, backend/coder.py, backend/modal_sandbox.py,
backend/local_sandbox.py).

The Python source is shallowly embedded: pure control flow is translated
directly, and every interaction with the outside world (sandbox command
execution, the generative backend, the database, the filesystem) is
abstracted as an oracle parameter supplying the outcome the external call
would have produced.  Exceptions are modelled with Except, where the error
payload carries the exception message.
-/

-- =====================================================
-- testing.py : data classes
-- =====================================================

/-- Mirrors dataclass TestResult (testing.py, lines 32-39).  The float
duration field only carries timing telemetry; it is modelled as a Nat. -/
structure TestResult where
  passed : Bool
  output : String
  duration : Nat
  framework : Option String := none
  command : Option String := none
deriving Repr, DecidableEq

/-- Mirrors dataclass BuildResult (testing.py, lines 42-49). -/
structure BuildResult where
  returncode : Int
  stdout : String
  stderr : String
  duration : Nat
  command : Option String := none
deriving Repr, DecidableEq

/-- Mirrors dataclass LintResult (testing.py, lines 52-58). -/
structure LintResult where
  passed : Bool
  output : String
  issues_count : Nat := 0
  command : Option String := none
deriving Repr, DecidableEq

/-- Mirrors dataclass TypeCheckResult (testing.py, lines 61-67). -/
structure TypeCheckResult where
  passed : Bool
  output : String
  errors_count : Nat := 0
  command : Option String := none
deriving Repr, DecidableEq

/-- Mirrors dataclass ReviewResult (testing.py, lines 70-74). -/
structure ReviewResult where
  score : Int
  feedback : String
deriving Repr, DecidableEq

/-- The results dictionary built by verify_and_iterate (testing.py,
lines 621-627 and 639-645): keys tests, build, lint, type_check, review. -/
structure VerificationResults where
  tests : Option TestResult
  build : Option BuildResult
  lint : Option LintResult
  type_check : Option TypeCheckResult
  review : Option ReviewResult
deriving Repr, DecidableEq

-- =====================================================
-- Python string primitives
-- =====================================================

/-- Models Python str.strip with no argument: leading and trailing
whitespace characters are removed.  Defined by structural recursion over
the character list so that concrete instances evaluate inside the
kernel. -/
def pyStrip (s : String) : String :=
  ⟨((s.data.dropWhile Char.isWhitespace).reverse.dropWhile
      Char.isWhitespace).reverse⟩

/-- Models Python slicing s[:n]: the first n characters of s. -/
def pyTruncate (s : String) (n : Nat) : String :=
  ⟨s.data.take n⟩

-- =====================================================
-- testing.py : detect_and_run_tests
-- =====================================================

/-- Mirrors detect_and_run_tests (testing.py, lines 257-324).

Oracles standing for calls into the sandbox:
* fs name — outcome of exec test -f name (true when the file exists);
* pkg_test_script — composite outcome of cat package.json followed by
  json.loads and the scripts lookup: none models a SandboxError or a
  JSONDecodeError (both caught at line 291), some b means the manifest
  parsed and b tells whether a test script is present;
* runCmd c — outcome of exec bash -c c (ok stdout, or error str(e) for a
  SandboxError);
* elapsed — the wall-clock duration measured around the run. -/
def detect_and_run_tests (fs : String → Bool) (pkg_test_script : Option Bool)
    (runCmd : String → Except String String) (elapsed : Nat)
    (custom_command : Option String) : TestResult :=
  let fc : Option String × Option String :=
    match custom_command with
    | some c => (some "custom", some c)
    | none =>
      if fs "pytest.ini" || fs "setup.py" || fs "pyproject.toml" then
        (some "pytest", some "pytest -v")
      else if fs "package.json" then
        match pkg_test_script with
        | some true => (some "npm", some "npm test")
        | _ => (none, none)
      else if fs "go.mod" then (some "go", some "go test ./...")
      else if fs "Cargo.toml" then (some "cargo", some "cargo test")
      else (none, none)
  match fc.2 with
  | some cmd =>
    match runCmd cmd with
    | .ok out =>
      { passed := true, output := pyTruncate out 5000, duration := elapsed,
        framework := fc.1, command := some cmd }
    | .error e =>
      { passed := false, output := pyTruncate e 5000, duration := elapsed,
        framework := fc.1, command := some cmd }
  | none =>
    { passed := true, output := pyTruncate "No test framework detected" 5000,
      duration := 0, framework := fc.1, command := none }

-- =====================================================
-- testing.py : verify_and_iterate
-- =====================================================

/-- The critical-check gate computed at each iteration of
verify_and_iterate (testing.py, lines 611-617): all_passed is the
conjunction of the test flag and the build check, and is then forced to
False when a review is present with a score below 80. -/
def all_passed (test_result : TestResult) (build_result : Option BuildResult)
    (review_result : Option ReviewResult) : Bool :=
  let base := test_result.passed &&
    (match build_result with
     | none => true
     | some b => b.returncode == 0)
  match review_result with
  | some r => if r.score < 80 then false else base
  | none => base

/-- One iteration of verify_and_iterate observes the outcomes of the
external checks it runs: run_build_verification, detect_and_run_tests and
(unless skipped) llm_self_review.  Those functions catch their own
exceptions, so each iteration deterministically yields one observation;
any influence of earlier fix prompts on later checks is absorbed into the
oracle being indexed by the iteration number. -/
structure IterObs where
  build : Option BuildResult
  test : TestResult
  review : ReviewResult
deriving Repr

/-- The review result actually fed into the gate: llm_self_review runs
only when skip_review is False (testing.py, lines 605-608). -/
def reviewOpt (skip_review : Bool) (obs : IterObs) : Option ReviewResult :=
  if skip_review then none else some obs.review

/-- Instrumented outcome of the verify_and_iterate loop: the returned
success flag and results dictionary, plus counters for the number of
run_claude_fix_fn invocations and the number of build, test and review
checks executed. -/
structure VAIRun where
  success : Bool
  results : VerificationResults
  fixCalls : Nat
  buildRuns : Nat
  testRuns : Nat
  reviewRuns : Nat
deriving Repr

/-- The for-loop of verify_and_iterate (testing.py, lines 587-645),
starting at iteration idx with fuel iterations remaining.  Each iteration
runs the build check, the test check and (unless skipped) the review,
evaluates the gate, and either returns success with that report, or sends
a fix prompt and continues; when the final iteration also sends its fix
prompt the loop falls through to the best-effort return at lines 637-645,
which reuses the last iteration observations and drops the review entry.
The fuel-zero case is unreachable from verify_and_iterate with a positive
iteration budget. -/
def vaiLoop (env : Nat → IterObs) (skip_review : Bool) :
    Nat → Nat → VAIRun
  | _idx, 0 =>
    { success := true,
      results := { tests := none, build := none, lint := none,
                   type_check := none, review := none },
      fixCalls := 0, buildRuns := 0, testRuns := 0, reviewRuns := 0 }
  | idx, fuel + 1 =>
    let obs := env idx
    let rev := reviewOpt skip_review obs
    let revRuns := if skip_review then 0 else 1
    if all_passed obs.test obs.build rev then
      { success := true,
        results := { tests := some obs.test, build := obs.build, lint := none,
                     type_check := none, review := rev },
        fixCalls := 0, buildRuns := 1, testRuns := 1, reviewRuns := revRuns }
    else if fuel = 0 then
      { success := true,
        results := { tests := some obs.test, build := obs.build, lint := none,
                     type_check := none, review := none },
        fixCalls := 1, buildRuns := 1, testRuns := 1, reviewRuns := revRuns }
    else
      let rest := vaiLoop env skip_review (idx + 1) fuel
      { success := rest.success, results := rest.results,
        fixCalls := rest.fixCalls + 1,
        buildRuns := rest.buildRuns + 1, testRuns := rest.testRuns + 1,
        reviewRuns := rest.reviewRuns + revRuns }

/-- Mirrors verify_and_iterate (testing.py, lines 565-645).  With a zero
iteration budget the loop body never runs and the trailing return
statement reads the unbound local test_result, raising a NameError; this
is the only way the function itself can raise. -/
def verify_and_iterate (env : Nat → IterObs) (max_iterations : Nat)
    (skip_review : Bool) : Except String (Bool × VerificationResults) :=
  if max_iterations = 0 then
    .error "NameError: local variable test_result is not defined"
  else
    let r := vaiLoop env skip_review 0 max_iterations
    .ok (r.success, r.results)

/-- Number of run_claude_fix_fn invocations performed by a call to
verify_and_iterate (zero when the budget is zero, since the NameError is
raised only after the loop). -/
def vaiFixCalls (env : Nat → IterObs) (max_iterations : Nat)
    (skip_review : Bool) : Nat :=
  if max_iterations = 0 then 0
  else (vaiLoop env skip_review 0 max_iterations).fixCalls

/-- Whether the verification gate is satisfied at iteration i. -/
def gateAt (env : Nat → IterObs) (skip_review : Bool) (i : Nat) : Bool :=
  all_passed (env i).test (env i).build (reviewOpt skip_review (env i))

-- =====================================================
-- coder.py : GrokCoderSession.run_prompt (streaming parser)
-- =====================================================

/-- A structured NDJSON event as consumed by run_prompt: json.loads
produces an object, then event.get with defaults yields the type tag and
the data payload (coder.py, lines 148-150).  The common string payload is
modelled; the parse oracle returns none for a line that is not valid
JSON. -/
structure GrokEvent where
  type_ : String
  data : String
deriving Repr, DecidableEq

/-- One pass of the streaming loop body for a single line (coder.py,
lines 141-181): the line is stripped, empty lines are skipped, every kept
line is appended to stdout_lines, a json.loads failure is caught and only
logged, and among the recognized event types only a text event mutates
state by appending its data to assistant_text (all other branches are
logging only).  The accumulator is (stdout_lines, assistant_text). -/
def processLine (parse : String → Option GrokEvent)
    (acc : List String × List String) (line : String) :
    List String × List String :=
  let l := pyStrip line
  if l = "" then acc
  else
    let outLines := acc.1 ++ [l]
    match parse l with
    | some ev =>
      if ev.type_ = "text" then (outLines, acc.2 ++ [ev.data])
      else (outLines, acc.2)
    | none => (outLines, acc.2)

/-- Mirrors GrokCoderSession.run_prompt (coder.py, lines 102-194) from
the point where the subprocess stream is consumed: the stream is the list
of stdout lines, parse is the json.loads oracle, and returncode is the
exit status read after the stream ends.  A non-zero exit status is only
logged as a warning (lines 188-191); the function still returns the
joined assistant text, or the joined raw kept lines when no text event
was seen (line 194).  Except makes a session failure representable; the
translated code never produces the error case. -/
def run_prompt (parse : String → Option GrokEvent) (lines : List String)
    (returncode : Int) : Except String String :=
  let acc := lines.foldl (processLine parse) ([], [])
  let stdout := String.intercalate "\n" acc.1
  .ok (if acc.2.isEmpty then stdout else String.intercalate "\n" acc.2)

/-- The stripped non-empty lines of the stream: exactly the lines kept in
stdout_lines by the loop. -/
def keptLines (lines : List String) : List String :=
  (lines.map pyStrip).filter (fun l => decide (l ≠ ""))

/-- The data payloads of the well-formed text-typed events of the stream,
in order. -/
def textEvents (parse : String → Option GrokEvent)
    (lines : List String) : List String :=
  (keptLines lines).filterMap fun l =>
    match parse l with
    | some ev => if ev.type_ = "text" then some ev.data else none
    | none => none

/-- Modelled from the spec: section 4.2 describes the returned text of the
streaming variant as the last result-typed event, or the raw concatenated
output if no such event is emitted.  This definition follows the words of
the spec and is compared against run_prompt, which is translated from the
source. -/
def specStreamFinalText (parse : String → Option GrokEvent)
    (lines : List String) : String :=
  let results := (keptLines lines).filterMap fun l =>
    match parse l with
    | some ev => if ev.type_ = "result" then some ev.data else none
    | none => none
  match results.getLast? with
  | some d => d
  | none => String.intercalate "\n" (keptLines lines)

-- =====================================================
-- modal_sandbox.py : exec_in_sandbox
-- =====================================================

/-- Captured outcome of one subprocess run: stdout, stderr and the exit
status. -/
structure ProcessResult where
  stdout : String
  stderr : String
  returncode : Int
deriving Repr, DecidableEq

/-- The error message built on failure: stderr or stdout or a fixed
fallback, following Python truthiness of strings (modal_sandbox.py,
line 306). -/
def sandboxErrorMessage (p : ProcessResult) : String :=
  if p.stderr ≠ "" then p.stderr
  else if p.stdout ≠ "" then p.stdout
  else "Unknown error"

/-- Mirrors exec_in_sandbox (modal_sandbox.py, lines 278-309): the
command runs in the repo directory, and a non-zero exit status raises
SandboxError while a zero exit status returns stdout. -/
def exec_in_sandbox (cmd : List String) (p : ProcessResult) :
    Except String String :=
  if p.returncode ≠ 0 then
    .error ("Command failed: " ++ String.intercalate " " cmd ++ ": " ++
      sandboxErrorMessage p)
  else .ok p.stdout

-- =====================================================
-- modal_sandbox.py / local_sandbox.py : sandbox creation and cleanup
-- =====================================================

/-- Externally visible actions performed while creating a sandbox. -/
inductive SbAction where
  /-- modal.Sandbox.create returned a provisioned cloud resource. -/
  | sandboxCreate
  /-- git clone of the target repository completed. -/
  | clone
  /-- git checkout -b of the feature branch completed. -/
  | branch
  /-- git config user.email completed. -/
  | configEmail
  /-- git config user.name completed. -/
  | configName
  /-- gh auth setup-git completed. -/
  | ghAuth
  /-- sandbox.terminate was invoked on the cloud resource. -/
  | terminate
  /-- shutil.rmtree removed the sandbox base directory. -/
  | removeDir
  /-- shutil.rmtree removed a leftover directory from a previous run. -/
  | removeLeftover
  /-- os.makedirs created the sandbox base directory. -/
  | makeDirs
deriving Repr, DecidableEq

/-- Oracle outcomes for the failable steps of
ModalSandboxManager.create (modal_sandbox.py, lines 100-204). -/
structure ModalCreateEnv where
  sandbox_create : Except String Unit
  clone : Except String Unit
  branch : Except String Unit
  config_email : Except String Unit
  config_name : Except String Unit
  gh_auth : Except String Unit

/-- Mirrors ModalSandboxManager.create (modal_sandbox.py, lines 100-204):
the try block sequences resource provisioning, clone, branch creation,
git identity configuration and gh authentication, appending the action of
each completed step; except Exception wraps any failure into a
SandboxError (line 204) and re-raises it without performing any teardown
of the steps already completed. -/
def ModalSandboxManager.create (e : ModalCreateEnv) :
    Except String Unit × List SbAction :=
  let wrap := fun (m : String) => "Failed to create Modal sandbox: " ++ m
  match e.sandbox_create with
  | .error m => (.error (wrap m), [])
  | .ok _ =>
    match e.clone with
    | .error m => (.error (wrap m), [.sandboxCreate])
    | .ok _ =>
      match e.branch with
      | .error m => (.error (wrap m), [.sandboxCreate, .clone])
      | .ok _ =>
        match e.config_email with
        | .error m => (.error (wrap m), [.sandboxCreate, .clone, .branch])
        | .ok _ =>
          match e.config_name with
          | .error m =>
            (.error (wrap m), [.sandboxCreate, .clone, .branch, .configEmail])
          | .ok _ =>
            match e.gh_auth with
            | .error m =>
              (.error (wrap m),
               [.sandboxCreate, .clone, .branch, .configEmail, .configName])
            | .ok _ =>
              (.ok (),
               [.sandboxCreate, .clone, .branch, .configEmail, .configName,
                .ghAuth])

/-- Mirrors ModalSandboxManager.cleanup (modal_sandbox.py, lines
206-212): sandbox.terminate is attempted and any exception is caught and
logged as a non-fatal warning, so the caller never sees an error. -/
def ModalSandboxManager.cleanup (terminate : Except String Unit) :
    Except String Unit :=
  match terminate with
  | .ok _ => .ok ()
  | .error _ => .ok ()

/-- Oracle outcomes for the failable steps inside the try block of the
local create_sandbox (local_sandbox.py, lines 179-222). -/
structure LocalCreateEnv where
  clone : Except String Unit
  branch : Except String Unit
  config_email : Except String Unit
  config_name : Except String Unit
  gh_auth : Except String Unit

/-- Mirrors create_sandbox (local_sandbox.py, lines 122-229): any
leftover directory from a previous run is removed and the base directory
is created before the try block; inside the try block the clone, branch,
git identity and gh authentication steps run in order, and on any failure
the except block removes the base directory with shutil.rmtree before
raising SandboxError (lines 224-229). -/
def create_sandbox_local (leftover : Bool) (e : LocalCreateEnv) :
    Except String Unit × List SbAction :=
  let wrap := fun (m : String) => "Failed to create local sandbox: " ++ m
  let pre := (if leftover then [SbAction.removeLeftover] else []) ++
    [SbAction.makeDirs]
  match e.clone with
  | .error m => (.error (wrap m), pre ++ [.removeDir])
  | .ok _ =>
    match e.branch with
    | .error m => (.error (wrap m), pre ++ [.clone, .removeDir])
    | .ok _ =>
      match e.config_email with
      | .error m => (.error (wrap m), pre ++ [.clone, .branch, .removeDir])
      | .ok _ =>
        match e.config_name with
        | .error m =>
          (.error (wrap m), pre ++ [.clone, .branch, .configEmail, .removeDir])
        | .ok _ =>
          match e.gh_auth with
          | .error m =>
            (.error (wrap m),
             pre ++ [.clone, .branch, .configEmail, .configName, .removeDir])
          | .ok _ =>
            (.ok (),
             pre ++ [.clone, .branch, .configEmail, .configName, .ghAuth])

/-- Mirrors cleanup_sandbox (local_sandbox.py, lines 232-244): the
directory is removed only when it exists and its path contains the
sandbox tag; shutil.rmtree runs with ignore_errors and the whole body is
inside a try block whose except clause only logs, so the caller never
sees an error. -/
def cleanup_sandbox_local (dir_exists : Bool) (dir_tagged : Bool)
    (rmtree : Except String Unit) : Except String Unit :=
  if dir_exists && dir_tagged then
    match rmtree with
    | .ok _ => .ok ()
    | .error _ => .ok ()
  else .ok ()

-- =====================================================
-- coder.py : CoderOrchestrator.execute_issue_workflow
-- =====================================================

/-- Observable actions of one workflow invocation: a logStep action
records a step-log call that returned normally, and cleanup records an
invocation of cleanup_sandbox. -/
inductive WfAction where
  | logStep (step : String)
  | cleanup
deriving Repr, DecidableEq

/-- Recognizer for the cleanup action. -/
def isCleanupAct : WfAction → Bool
  | .cleanup => true
  | _ => false

/-- Number of cleanup_sandbox invocations recorded in a trace. -/
def cleanupCount (l : List WfAction) : Nat := l.countP isCleanupAct

/-- How execute_issue_workflow terminates: a returned result dict with a
status field, or a propagated exception. -/
inductive WfExit where
  | returned (status : String)
  | raised (msg : String)
deriving Repr, DecidableEq

/-- Oracle outcomes for the failable steps of execute_issue_workflow
(coder.py, lines 230-438).  Every database call in that function,
including every step-log call (the _log_step helper at lines 440-451
calls db.create_execution_log, which performs a bare supabase insert and
can raise), is failable.  The standalone _log_step calls that stand
between two control points draw their outcome from the log oracle, keyed
by step name; contiguous failable calls with no control point between
them are grouped into one oracle: implement covers steps 4 through 8
(context detection, plan fetch, test-case generation, status update,
session record creation, implementation prompt and the step logs
interleaved with them, verification_cycle included) and finalize covers
steps 10 through 13 (commit, push, PR creation, database updates and
their step logs). -/
structure WorkflowEnv where
  /-- db.get_repo_config found a configuration (checked before the try
  block; a missing one raises WorkflowError at line 254). -/
  repo_config_found : Bool
  /-- db.get_project found the project (a missing one raises
  WorkflowError at line 266). -/
  project_found : Bool
  /-- an existing sandbox context was passed in, so the reuse path of
  step 3 is taken and creation is skipped. -/
  existing_sandbox : Bool
  /-- outcome of create_sandbox when no existing context was passed. -/
  create_sandbox : Except String Unit
  /-- combined outcome of steps 4 through 8. -/
  implement : Except String Unit
  /-- outcome of verify_and_iterate: ok carries the success flag, error a
  propagated exception. -/
  verify : Except String Bool
  /-- combined outcome of the verification-failed branch before its early
  return (lines 336-348: the verification_failed log and the two database
  updates). -/
  fail_branch : Except String Unit
  /-- combined outcome of steps 10 through 13. -/
  finalize : Except String Unit
  /-- combined outcome of the except block body before the re-raise
  (lines 419-432: the workflow_error log and the database updates); its
  failure replaces the original exception. -/
  except_steps : Except String Unit
  /-- outcome of each standalone _log_step call, keyed by step name:
  workflow_start (line 261), reuse_sandbox or create_sandbox (lines
  270-273) and, crucially, the cleanup log inside the finally block
  (line 437). -/
  log : String → Except String Unit

/-- The try block of execute_issue_workflow (coder.py, lines 259-415).
Returns the body outcome (a returned status string or an exception), the
flag telling whether the local sandbox_ctx variable was bound to a
context, and the step-log trace emitted so far.  The early return of the
verification-failed branch (lines 335-349) yields status failed; the
normal path yields status success.  A step-log call that raises before
sandbox acquisition leaves sandbox_ctx unbound. -/
def wfTryBody (e : WorkflowEnv) :
    Except String String × Bool × List WfAction :=
  match e.log "workflow_start" with
  | .error m => (.error m, false, [])
  | .ok _ =>
    let t1 := [WfAction.logStep "workflow_start"]
    if e.project_found = false then
      (.error "Project not found", false, t1)
    else
      match e.log
        (if e.existing_sandbox then "reuse_sandbox" else "create_sandbox") with
      | .error m => (.error m, false, t1)
      | .ok _ =>
        let t2 := t1 ++ [WfAction.logStep
          (if e.existing_sandbox then "reuse_sandbox" else "create_sandbox")]
        match (if e.existing_sandbox then .ok () else e.create_sandbox :
            Except String Unit) with
        | .error m => (.error m, false, t2)
        | .ok _ =>
          let t3 := t2 ++ [WfAction.logStep "detect_context",
            WfAction.logStep "generate_tests",
            WfAction.logStep "start_grok_session",
            WfAction.logStep "implement_feature"]
          match e.implement with
          | .error m => (.error m, true, t3)
          | .ok _ =>
            let t4 := t3 ++ [WfAction.logStep "verification_cycle"]
            match e.verify with
            | .error m => (.error m, true, t4)
            | .ok success =>
              if success = false then
                match e.fail_branch with
                | .error m => (.error m, true, t4)
                | .ok _ =>
                  (.ok "failed", true,
                   t4 ++ [WfAction.logStep "verification_failed"])
              else
                let t5 := t4 ++ [WfAction.logStep "commit_changes",
                  WfAction.logStep "push_branch", WfAction.logStep "create_pr"]
                match e.finalize with
                | .error m => (.error m, true, t5)
                | .ok _ =>
                  (.ok "success", true,
                   t5 ++ [WfAction.logStep "workflow_complete"])

/-- The except block of execute_issue_workflow (coder.py, lines
417-433), entered with the message of the body exception: it logs the
error and updates the database, then re-raises; if one of those calls
itself raises, the new exception propagates in place of the original
one. -/
def wfExceptBlock (e : WorkflowEnv) (m : String) : String × List WfAction :=
  match e.except_steps with
  | .ok _ => (m, [WfAction.logStep "workflow_error"])
  | .error m2 => (m2, [])

/-- The finally block of execute_issue_workflow (coder.py, lines
435-438): when sandbox_ctx is bound, the cleanup step-log call runs first
(line 437) and only if it returns does cleanup_sandbox run (line 438); a
raising log call skips the cleanup and its exception propagates. -/
def wfFinallyBlock (e : WorkflowEnv) (acquired : Bool) :
    Except String Unit × List WfAction :=
  if acquired then
    match e.log "cleanup" with
    | .ok _ => (.ok (), [WfAction.logStep "cleanup", WfAction.cleanup])
    | .error m => (.error m, [])
  else (.ok (), [])

/-- Mirrors CoderOrchestrator.execute_issue_workflow (coder.py, lines
230-438): the missing-configuration check runs before the try block; on a
body exception the except block runs before the finally block; the
finally block runs on every exit path, and an exception raised inside it
replaces the pending outcome, following Python try/except/finally
semantics. -/
def execute_issue_workflow (e : WorkflowEnv) : WfExit × List WfAction :=
  if e.repo_config_found = false then
    (.raised "Repository config not found", [])
  else
    match wfTryBody e with
    | (body, acquired, tr) =>
      match body with
      | .ok status =>
        match wfFinallyBlock e acquired with
        | (.ok _, ftr) => (.returned status, tr ++ ftr)
        | (.error m, ftr) => (.raised m, tr ++ ftr)
      | .error m0 =>
        match wfExceptBlock e m0 with
        | (m1, xtr) =>
          match wfFinallyBlock e acquired with
          | (.ok _, ftr) => (.raised m1, tr ++ xtr ++ ftr)
          | (.error m2, ftr) => (.raised m2, tr ++ xtr ++ ftr)

/-- The verify_and_iterate outcome as seen by the workflow: the success
flag of a normal return, or the propagated exception. -/
def workflow_verify_outcome (env : Nat → IterObs) (max_iterations : Nat)
    (skip_review : Bool) : Except String Bool :=
  match verify_and_iterate env max_iterations skip_review with
  | .ok r => .ok r.1
  | .error m => .error m

-- =====================================================
-- Auxiliary definitions and concrete instances
-- =====================================================

/-- Whether an Except value is the error case. -/
def isFailure {α : Type} : Except String α → Bool
  | .error _ => true
  | .ok _ => false

/-- Contribution of one stream line to stdout_lines: its stripped text
when non-empty. -/
def lineText (l : String) : List String :=
  if pyStrip l = "" then [] else [pyStrip l]

/-- Contribution of one stream line to assistant_text: the data of a
well-formed text-typed event. -/
def lineEvent (parse : String → Option GrokEvent) (l : String) :
    List String :=
  if pyStrip l = "" then []
  else
    match parse (pyStrip l) with
    | some ev => if ev.type_ = "text" then [ev.data] else []
    | none => []

/-- Iteration oracle on which every verification gate fails: tests fail,
no build step, review would score 100. -/
def envFail : Nat → IterObs := fun _ =>
  { build := none,
    test := { passed := false, output := "", duration := 0 },
    review := { score := 100, feedback := "" } }

/-- Iteration oracle on which the gate passes at once. -/
def envPass : Nat → IterObs := fun _ =>
  { build := none,
    test := { passed := true, output := "ok", duration := 0 },
    review := { score := 90, feedback := "" } }

/-- The value verify_and_iterate returns on envFail with a budget of one
iteration and review skipped. -/
def outFail : Bool × VerificationResults :=
  (true,
   { tests := some { passed := false, output := "", duration := 0 },
     build := none, lint := none, type_check := none, review := none })

/-- Workflow oracle whose verification step is the actual
verify_and_iterate outcome on envFail. -/
def wfEnvVerify : WorkflowEnv :=
  { repo_config_found := true, project_found := true,
    existing_sandbox := false, create_sandbox := .ok (),
    implement := .ok (), verify := workflow_verify_outcome envFail 1 true,
    fail_branch := .ok (), finalize := .ok (), except_steps := .ok (),
    log := fun _ => .ok () }

/-- Workflow oracle on which every step succeeds. -/
def wfEnvAllOk : WorkflowEnv :=
  { repo_config_found := true, project_found := true,
    existing_sandbox := false, create_sandbox := .ok (),
    implement := .ok (), verify := .ok true,
    fail_branch := .ok (), finalize := .ok (), except_steps := .ok (),
    log := fun _ => .ok () }

/-- Workflow oracle on which every step succeeds except the cleanup
step-log call inside the finally block, whose database insert raises. -/
def wfEnvLogFail : WorkflowEnv :=
  { repo_config_found := true, project_found := true,
    existing_sandbox := false, create_sandbox := .ok (),
    implement := .ok (), verify := .ok true,
    fail_branch := .ok (), finalize := .ok (), except_steps := .ok (),
    log := fun s =>
      if s = "cleanup" then .error "log sink insert failed" else .ok () }

/-- Modal creation oracle: the cloud resource is provisioned and the
clone then fails. -/
def menvCloneFail : ModalCreateEnv :=
  { sandbox_create := .ok (), clone := .error "clone failed",
    branch := .ok (), config_email := .ok (), config_name := .ok (),
    gh_auth := .ok () }

/-- Local creation oracle: the clone fails. -/
def lenvCloneFail : LocalCreateEnv :=
  { clone := .error "clone failed", branch := .ok (),
    config_email := .ok (), config_name := .ok (), gh_auth := .ok () }

/-- A concrete parse oracle used on concrete streams: eventR is a
result-typed event and eventT1, eventT2 are text-typed events; every
other line is not valid JSON. -/
def parseDemo (l : String) : Option GrokEvent :=
  if l = "eventR" then some { type_ := "result", data := "done" }
  else if l = "eventT1" then some { type_ := "text", data := "alpha" }
  else if l = "eventT2" then some { type_ := "text", data := "beta" }
  else none

-- =====================================================
-- Helper lemmas
-- =====================================================

/-- Every exit of the verify_and_iterate loop carries success = True:
both the gate-passed return and the budget-exhausted best-effort
return. -/
theorem vaiLoop_success (env : Nat → IterObs) (sk : Bool) :
    ∀ fuel idx, (vaiLoop env sk idx fuel).success = true := by
  intro fuel
  induction fuel with
  | zero => intro idx; rfl
  | succ f ih =>
    intro idx
    unfold vaiLoop
    by_cases h :
        all_passed (env idx).test (env idx).build (reviewOpt sk (env idx)) = true
    · simp [h]
    · by_cases hf : f = 0
      · simp [h, hf]
      · simp [h, hf, ih (idx + 1)]

/-- The results dictionary never carries lint or type-check entries. -/
theorem vaiLoop_lint_type_none (env : Nat → IterObs) (sk : Bool) :
    ∀ fuel idx, (vaiLoop env sk idx fuel).results.lint = none ∧
      (vaiLoop env sk idx fuel).results.type_check = none := by
  intro fuel
  induction fuel with
  | zero => intro idx; exact ⟨rfl, rfl⟩
  | succ f ih =>
    intro idx
    unfold vaiLoop
    by_cases h :
        all_passed (env idx).test (env idx).build (reviewOpt sk (env idx)) = true
    · simp [h]
    · by_cases hf : f = 0
      · simp [h, hf]
      · simp [h, hf, ih (idx + 1)]

/-- When the gate fails at every iteration the loop consumes, each
consumed iteration sends exactly one fix prompt, the final one
included. -/
theorem vaiLoop_fixCalls_exhaust (env : Nat → IterObs) (sk : Bool) :
    ∀ fuel idx, (∀ j, j < fuel → gateAt env sk (idx + j) = false) →
      (vaiLoop env sk idx fuel).fixCalls = fuel := by
  intro fuel
  induction fuel with
  | zero => intro idx _; rfl
  | succ f ih =>
    intro idx h
    have h0 : all_passed (env idx).test (env idx).build
        (reviewOpt sk (env idx)) = false := by
      have := h 0 (by omega)
      simpa [gateAt] using this
    unfold vaiLoop
    by_cases hf : f = 0
    · simp [h0, hf]
    · have hrest : (vaiLoop env sk (idx + 1) f).fixCalls = f := by
        refine ih (idx + 1) (fun j hj => ?_)
        have := h (j + 1) (by omega)
        simpa [Nat.add_assoc, Nat.add_comm 1 j] using this
      simp [h0, hf, hrest]

/-- The loop body of run_prompt appends each line contributions to both
accumulators. -/
theorem processLine_step (parse : String → Option GrokEvent)
    (a b : List String) (x : String) :
    processLine parse (a, b) x = (a ++ lineText x, b ++ lineEvent parse x) := by
  unfold processLine lineText lineEvent
  by_cases hx : pyStrip x = ""
  · simp [hx]
  · simp only [hx, if_false]
    cases hp : parse (pyStrip x) with
    | none => simp [hp]
    | some ev =>
      by_cases ht : ev.type_ = "text" <;> simp [hp, ht]

/-- keptLines unfolds one line at a time. -/
theorem keptLines_cons (x : String) (xs : List String) :
    keptLines (x :: xs) = lineText x ++ keptLines xs := by
  unfold keptLines lineText
  by_cases hx : pyStrip x = "" <;> simp [hx]

/-- textEvents unfolds one line at a time. -/
theorem textEvents_cons (parse : String → Option GrokEvent)
    (x : String) (xs : List String) :
    textEvents parse (x :: xs) = lineEvent parse x ++ textEvents parse xs := by
  unfold textEvents lineEvent
  rw [keptLines_cons]
  unfold lineText
  by_cases hx : pyStrip x = ""
  · simp [hx]
  · simp only [hx, if_false, List.singleton_append, List.filterMap_cons]
    cases hp : parse (pyStrip x) with
    | none => simp
    | some ev =>
      by_cases ht : ev.type_ = "text" <;> simp [ht]

/-- The streaming fold computes exactly the kept raw lines and the data of
the text-typed events, in order. -/
theorem foldl_processLine (parse : String → Option GrokEvent) :
    ∀ (lines : List String) (a b : List String),
      lines.foldl (processLine parse) (a, b) =
        (a ++ keptLines lines, b ++ textEvents parse lines) := by
  intro lines
  induction lines with
  | nil => intro a b; simp [keptLines, textEvents]
  | cons x xs ih =>
    intro a b
    simp only [List.foldl_cons, processLine_step]
    rw [ih, keptLines_cons, textEvents_cons]
    simp [List.append_assoc]

/-- Declarative characterization of run_prompt: the returned text is the
newline-join of the text-typed event payloads, or the newline-join of the
kept raw lines when no text event occurs, independently of the exit
status. -/
theorem run_prompt_characterization (parse : String → Option GrokEvent)
    (lines : List String) (rc : Int) :
    run_prompt parse lines rc = .ok
      (if (textEvents parse lines).isEmpty
       then String.intercalate "\n" (keptLines lines)
       else String.intercalate "\n" (textEvents parse lines)) := by
  unfold run_prompt
  rw [show lines.foldl (processLine parse) ([], []) =
      (keptLines lines, textEvents parse lines) from by
    simpa using foldl_processLine parse lines [] []]

/-- keptLines distributes over append. -/
theorem keptLines_append (xs ys : List String) :
    keptLines (xs ++ ys) = keptLines xs ++ keptLines ys := by
  unfold keptLines
  simp [List.filter_append]

/-- textEvents distributes over append. -/
theorem textEvents_append (parse : String → Option GrokEvent)
    (xs ys : List String) :
    textEvents parse (xs ++ ys) =
      textEvents parse xs ++ textEvents parse ys := by
  unfold textEvents
  rw [keptLines_append]
  simp [List.filterMap_append]

/-- A line that does not parse contributes no text event. -/
theorem textEvents_single_malformed (parse : String → Option GrokEvent)
    (bad : String) (hbad : parse (pyStrip bad) = none) :
    textEvents parse [bad] = [] := by
  unfold textEvents keptLines
  by_cases hx : pyStrip bad = "" <;> simp [hx, hbad]

/-- The try block yields status failed only when the verify step reported
success = False. -/
theorem wfTryBody_failed_verify (e : WorkflowEnv)
    (h : (wfTryBody e).1 = .ok "failed") : e.verify = .ok false := by
  unfold wfTryBody at h
  repeat' split at h
  all_goals simp_all

/-- The try block trace never contains a cleanup action. -/
theorem wfTryBody_no_cleanup (e : WorkflowEnv) :
    cleanupCount (wfTryBody e).2.2 = 0 := by
  unfold wfTryBody
  repeat' split
  all_goals rfl

/-- The except block trace never contains a cleanup action. -/
theorem wfExceptBlock_no_cleanup (e : WorkflowEnv) (m : String) :
    cleanupCount (wfExceptBlock e m).2 = 0 := by
  unfold wfExceptBlock
  split <;> simp [cleanupCount, isCleanupAct]

/-- The only way execute_issue_workflow returns the failed status is a
verify step reporting success = False. -/
theorem workflow_failed_requires_verify_false (we : WorkflowEnv) :
    (execute_issue_workflow we).1 = WfExit.returned "failed" →
      we.verify = .ok false := by
  intro h
  apply wfTryBody_failed_verify
  unfold execute_issue_workflow at h
  by_cases hc : we.repo_config_found = false
  · rw [if_pos hc] at h
    simp at h
  · rw [if_neg hc] at h
    rcases hb : wfTryBody we with ⟨body, acq, tr⟩
    rw [hb] at h
    dsimp only at h ⊢
    cases body with
    | ok s =>
      rcases hf : wfFinallyBlock we acq with ⟨fo, ftr⟩
      rw [hf] at h
      cases fo with
      | ok u =>
        dsimp only at h
        simp only [WfExit.returned.injEq] at h
        rw [h]
      | error m =>
        dsimp only at h
        exact absurd h (by simp)
    | error m0 =>
      dsimp only at h
      rcases hf : wfFinallyBlock we acq with ⟨fo, ftr⟩
      rw [hf] at h
      cases fo <;> dsimp only at h <;> exact absurd h (by simp)

/-- ModalSandboxManager.create never invokes terminate, whatever the step
outcomes are. -/
theorem modal_create_no_terminate (e : ModalCreateEnv) :
    SbAction.terminate ∉ (ModalSandboxManager.create e).2 := by
  obtain ⟨s, c, b, ce, cn, g⟩ := e
  cases s <;> cases c <;> cases b <;> cases ce <;> cases cn <;> cases g <;>
    simp [ModalSandboxManager.create]

-- =====================================================
-- Claims
-- =====================================================

/-- Claim C1 as stated is false: on a run whose gate fails at every
iteration, a budget of one iteration sends one fix prompt, not
maxIterations - 1 = 0, because the final failing iteration also sends its
fix prompt before the loop exits. -/
theorem C1_counterexample :
    ¬ (∀ (env : Nat → IterObs) (mi : Nat) (sk : Bool), 1 ≤ mi →
        (∀ i, i < mi → gateAt env sk i = false) →
        vaiFixCalls env mi sk = mi - 1) := by
  intro h
  have h0 : ∀ i, i < 1 → gateAt envFail true i = false := by
    intro i hi
    have hz : i = 0 := by omega
    subst hz
    decide
  have h1 := h envFail 1 true (by omega) h0
  exact absurd h1 (by decide)

/-- Claim C1 (amended): for every call to verify_and_iterate with
maxIterations at least 1 in which no iteration satisfies the verification
gate, the fix callback run_claude_fix_fn is invoked exactly maxIterations
times (one fix prompt per failing iteration, the final iteration
included). -/
theorem C1_fix_calls_on_exhaustion (env : Nat → IterObs) (mi : Nat)
    (sk : Bool) (hmi : 1 ≤ mi)
    (hfail : ∀ i, i < mi → gateAt env sk i = false) :
    vaiFixCalls env mi sk = mi := by
  unfold vaiFixCalls
  rw [if_neg (by omega)]
  refine vaiLoop_fixCalls_exhaust env sk mi 0 (fun j hj => ?_)
  simpa using hfail j hj

/-- Witness: the amended C1 at the concrete always-failing oracle with a
budget of one iteration. -/
theorem C1_witness : vaiFixCalls envFail 1 true = 1 :=
  C1_fix_calls_on_exhaustion envFail 1 true (by omega)
    (fun i hi => by
      have hz : i = 0 := by omega
      subst hz
      decide)

/-- Claim C2: whenever verify_and_iterate returns normally the success
flag is True, so in execute_issue_workflow the branch that logs
verification_failed and returns the failed status is unreachable when the
verify step carries the actual verify_and_iterate outcome. -/
theorem C2_success_flag_always_true (env : Nat → IterObs) (mi : Nat)
    (sk : Bool) (out : Bool × VerificationResults) (we : WorkflowEnv)
    (hok : verify_and_iterate env mi sk = .ok out)
    (hwe : we.verify = workflow_verify_outcome env mi sk) :
    out.1 = true ∧ (execute_issue_workflow we).1 ≠ WfExit.returned "failed" := by
  have hmi : ¬ mi = 0 := by
    intro hz
    rw [hz] at hok
    simp [verify_and_iterate] at hok
  have hout : out.1 = true := by
    unfold verify_and_iterate at hok
    rw [if_neg hmi] at hok
    have := (Except.ok.inj hok).symm
    rw [this]
    exact vaiLoop_success env sk mi 0
  refine ⟨hout, fun hfail => ?_⟩
  have hvf := workflow_failed_requires_verify_false we hfail
  rw [hwe] at hvf
  unfold workflow_verify_outcome at hvf
  rw [hok] at hvf
  simp [hout] at hvf

/-- Witness: C2 at the concrete always-failing oracle, whose
verify_and_iterate outcome is still success, and a workflow whose verify
step carries that outcome. -/
theorem C2_witness :
    outFail.1 = true ∧
    (execute_issue_workflow wfEnvVerify).1 ≠ WfExit.returned "failed" :=
  C2_success_flag_always_true envFail 1 true outFail wfEnvVerify rfl rfl

/-- Claim C3: when the first iteration satisfies the gate,
verify_and_iterate returns success immediately with the first iteration
report, the build and test checks each ran exactly once, the review ran
exactly once when enabled, and the fix callback was never invoked. -/
theorem C3_first_iteration_success (env : Nat → IterObs) (mi : Nat)
    (sk : Bool) (hmi : 1 ≤ mi) (hgate : gateAt env sk 0 = true) :
    verify_and_iterate env mi sk = .ok (true,
      { tests := some (env 0).test, build := (env 0).build, lint := none,
        type_check := none, review := reviewOpt sk (env 0) }) ∧
    vaiFixCalls env mi sk = 0 ∧
    (vaiLoop env sk 0 mi).buildRuns = 1 ∧
    (vaiLoop env sk 0 mi).testRuns = 1 ∧
    (vaiLoop env sk 0 mi).reviewRuns = (if sk then 0 else 1) := by
  obtain ⟨f, rfl⟩ : ∃ f, mi = f + 1 := ⟨mi - 1, by omega⟩
  have hg : all_passed (env 0).test (env 0).build (reviewOpt sk (env 0)) = true := by
    simpa [gateAt] using hgate
  have hv : vaiLoop env sk 0 (f + 1) =
      { success := true,
        results := { tests := some (env 0).test, build := (env 0).build,
                     lint := none, type_check := none,
                     review := reviewOpt sk (env 0) },
        fixCalls := 0, buildRuns := 1, testRuns := 1,
        reviewRuns := if sk then 0 else 1 } := by
    unfold vaiLoop
    simp [hg]
  refine ⟨?_, ?_, ?_, ?_, ?_⟩ <;>
    simp [verify_and_iterate, vaiFixCalls, hv]

/-- Witness: C3 at the concrete passing oracle with a budget of one
iteration and review skipped. -/
theorem C3_witness :
    verify_and_iterate envPass 1 true = .ok (true,
      { tests := some { passed := true, output := "ok", duration := 0 },
        build := none, lint := none, type_check := none, review := none }) ∧
    vaiFixCalls envPass 1 true = 0 ∧
    (vaiLoop envPass true 0 1).buildRuns = 1 ∧
    (vaiLoop envPass true 0 1).testRuns = 1 ∧
    (vaiLoop envPass true 0 1).reviewRuns = (if true then 0 else 1) :=
  C3_first_iteration_success envPass 1 true (by omega) (by decide)

/-- Claim C4: the verification gate passes exactly when the tests passed,
the build is absent or exited with 0, and the review is absent or scored
at least 80; the results dictionary never carries lint or type-check
entries, so they cannot influence the gate. -/
theorem C4_gate_characterization (t : TestResult) (b : Option BuildResult)
    (r : Option ReviewResult) (env : Nat → IterObs) (sk : Bool)
    (idx fuel : Nat) :
    (all_passed t b r = true ↔
      (t.passed = true ∧
       (b = none ∨ ∃ br, b = some br ∧ br.returncode = 0) ∧
       (r = none ∨ ∃ rv, r = some rv ∧ 80 ≤ rv.score))) ∧
    (vaiLoop env sk idx fuel).results.lint = none ∧
    (vaiLoop env sk idx fuel).results.type_check = none := by
  refine ⟨?_, (vaiLoop_lint_type_none env sk fuel idx).1,
    (vaiLoop_lint_type_none env sk fuel idx).2⟩
  unfold all_passed
  cases b with
  | none =>
    cases r with
    | none => simp
    | some rv =>
      by_cases hs : rv.score < 80
      · have h80 : ¬ 80 ≤ rv.score := by omega
        simp [hs, h80]
      · have h80 : 80 ≤ rv.score := by omega
        simp [hs, h80]
  | some br =>
    cases r with
    | none =>
      simp [beq_iff_eq]
      try tauto
    | some rv =>
      by_cases hs : rv.score < 80
      · have h80 : ¬ 80 ≤ rv.score := by omega
        simp [hs, h80]
      · have h80 : 80 ≤ rv.score := by omega
        simp [hs, h80, beq_iff_eq]
        try tauto

/-- Claim C5: with no custom command and no recognized test marker,
detect_and_run_tests reports a vacuous pass with the no-framework message
and no command or framework, so tests trigger no fix prompt. -/
theorem C5_no_framework_vacuous_pass (fs : String → Bool)
    (pkg : Option Bool) (runCmd : String → Except String String)
    (elapsed : Nat)
    (h1 : fs "pytest.ini" = false) (h2 : fs "setup.py" = false)
    (h3 : fs "pyproject.toml" = false)
    (h4 : fs "package.json" = false ∨ pkg ≠ some true)
    (h5 : fs "go.mod" = false) (h6 : fs "Cargo.toml" = false) :
    detect_and_run_tests fs pkg runCmd elapsed none =
      { passed := true, output := "No test framework detected",
        duration := 0, framework := none, command := none } := by
  have hmsg : pyTruncate "No test framework detected" 5000 =
      "No test framework detected" := by decide
  unfold detect_and_run_tests
  rcases h4 with h4 | h4
  · simp [h1, h2, h3, h4, h5, h6, hmsg]
  · by_cases hp : fs "package.json" = true
    · have hpk : (match pkg with
        | some true => ((some "npm" : Option String), (some "npm test" : Option String))
        | _ => (none, none)) = (none, none) := by
        cases pkg with
        | none => rfl
        | some b => cases b with
          | true => exact absurd rfl h4
          | false => rfl
      simp [h1, h2, h3, hp, hpk, hmsg]
    · simp at hp
      simp [h1, h2, h3, hp, h5, h6, hmsg]

/-- Witness: C5 on a repository with no manifest files at all. -/
theorem C5_witness :
    detect_and_run_tests (fun _ => false) none (fun _ => .error "no run") 0
        none =
      { passed := true, output := "No test framework detected",
        duration := 0, framework := none, command := none } :=
  C5_no_framework_vacuous_pass (fun _ => false) none (fun _ => .error "no run")
    0 rfl rfl rfl (Or.inl rfl) rfl rfl

/-- Claim C6 as stated is false: the cleanup step-log call at coder.py
line 437 precedes cleanup_sandbox inside the finally block and has no
exception handling, so when its database insert raises with a sandbox
bound, cleanup_sandbox is never invoked — on the concrete oracle whose
cleanup log fails, a sandbox was acquired yet the trace contains zero
cleanup actions. -/
theorem C6_counterexample :
    (wfTryBody wfEnvLogFail).2.1 = true ∧
    cleanupCount (execute_issue_workflow wfEnvLogFail).2 = 0 ∧
    ¬ (∀ we : WorkflowEnv, we.repo_config_found = true →
        (wfTryBody we).2.1 = true →
        cleanupCount (execute_issue_workflow we).2 = 1) := by
  refine ⟨by decide, by decide, fun h => ?_⟩
  have h1 := h wfEnvLogFail rfl (by decide)
  exact absurd h1 (by decide)

/-- Claim C6 (amended): whenever the workflow acquired a sandbox context
(created or reused) and the cleanup step-log call in the finally block
does not raise, cleanup_sandbox is invoked exactly once, on every exit
path (normal return, early failed return and exception propagation), and
neither cleanup implementation ever propagates an error to its caller; if
that log call raises, cleanup is skipped. -/
theorem C6_cleanup_once_unless_log_fails (we : WorkflowEnv)
    (t : Except String Unit) (de dt : Bool) (rm : Except String Unit)
    (hc : we.repo_config_found = true)
    (hacq : (wfTryBody we).2.1 = true)
    (hlog : we.log "cleanup" = .ok ()) :
    cleanupCount (execute_issue_workflow we).2 = 1 ∧
    ModalSandboxManager.cleanup t = .ok () ∧
    cleanup_sandbox_local de dt rm = .ok () := by
  refine ⟨?_, ?_, ?_⟩
  · have htr := wfTryBody_no_cleanup we
    unfold execute_issue_workflow
    rw [if_neg (by simp [hc])]
    rcases hb : wfTryBody we with ⟨body, acq, tr⟩
    rw [hb] at hacq htr
    simp only at hacq htr
    subst hacq
    have hfin : wfFinallyBlock we true =
        (.ok (), [WfAction.logStep "cleanup", WfAction.cleanup]) := by
      unfold wfFinallyBlock
      rw [if_pos rfl, hlog]
    dsimp only
    cases body with
    | ok s =>
      rw [hfin]
      dsimp only
      unfold cleanupCount at htr ⊢
      rw [List.countP_append, htr]
      rfl
    | error m0 =>
      have hxtr := wfExceptBlock_no_cleanup we m0
      rw [hfin]
      dsimp only
      unfold cleanupCount at htr hxtr ⊢
      rw [List.countP_append, List.countP_append, htr, hxtr]
      rfl
  · cases t <;> rfl
  · unfold cleanup_sandbox_local
    cases de <;> cases dt <;> cases rm <;> rfl

/-- Witness: the amended C6 on the all-success workflow oracle, with
concrete cleanup outcomes including a failing terminate and rmtree. -/
theorem C6_witness :
    cleanupCount (execute_issue_workflow wfEnvAllOk).2 = 1 ∧
    ModalSandboxManager.cleanup (.error "terminate failed") = .ok () ∧
    cleanup_sandbox_local true true (.error "rmtree failed") = .ok () :=
  C6_cleanup_once_unless_log_fails wfEnvAllOk (.error "terminate failed")
    true true (.error "rmtree failed") rfl (by decide) rfl

/-- Claim C7 as stated is false for the cloud backend: when the clone
fails after the Modal sandbox resource was provisioned, the SandboxError
propagates while the trace contains the provisioned resource and no
terminate call, so the cloud resource is not torn down. -/
theorem C7_counterexample :
    (ModalSandboxManager.create menvCloneFail).1 =
      .error "Failed to create Modal sandbox: clone failed" ∧
    SbAction.sandboxCreate ∈ (ModalSandboxManager.create menvCloneFail).2 ∧
    SbAction.terminate ∉ (ModalSandboxManager.create menvCloneFail).2 :=
  ⟨rfl, by decide, by decide⟩

/-- Claim C7 (amended): when the local-subprocess creation fails, the
half-created sandbox directory is removed as the last action before the
SandboxError propagates; the cloud backend, by contrast, never terminates
the already-provisioned Modal sandbox on any failure. -/
theorem C7_partial_state_teardown (leftover : Bool) (le : LocalCreateEnv)
    (me : ModalCreateEnv)
    (h : isFailure (create_sandbox_local leftover le).1 = true) :
    (create_sandbox_local leftover le).2.getLast? = some SbAction.removeDir ∧
    SbAction.terminate ∉ (ModalSandboxManager.create me).2 := by
  refine ⟨?_, modal_create_no_terminate me⟩
  obtain ⟨c, b, ce, cn, g⟩ := le
  cases leftover <;> cases c <;> cases b <;> cases ce <;> cases cn <;>
    cases g <;>
      simp_all [create_sandbox_local, isFailure]

/-- Witness: the amended C7 at the concrete clone-failure oracles. -/
theorem C7_witness :
    (create_sandbox_local false lenvCloneFail).2.getLast? =
      some SbAction.removeDir ∧
    SbAction.terminate ∉ (ModalSandboxManager.create menvCloneFail).2 :=
  C7_partial_state_teardown false lenvCloneFail menvCloneFail rfl

/-- Claim C8 as stated is false for the streaming session: with a
non-zero subprocess exit status, run_prompt does not fail — on the
concrete one-line stream it returns the raw line as a normal result. -/
theorem C8_counterexample :
    ¬ (∀ (parse : String → Option GrokEvent) (lines : List String)
        (rc : Int), rc ≠ 0 → isFailure (run_prompt parse lines rc) = true) := by
  intro h
  have h1 := h parseDemo ["eventR"] 1 (by omega)
  have h2 : run_prompt parseDemo ["eventR"] 1 = .ok "eventR" := rfl
  rw [h2] at h1
  exact absurd h1 (by decide)

/-- Claim C8 (amended): exec_in_sandbox raises SandboxError exactly when
the process exit status is non-zero and returns stdout otherwise, while
the streaming session run_prompt never fails on a non-zero subprocess
exit status — it logs a warning and still returns a result text. -/
theorem C8_nonzero_exit_reporting (cmd : List String) (p : ProcessResult)
    (parse : String → Option GrokEvent) (lines : List String) (rc : Int) :
    (isFailure (exec_in_sandbox cmd p) = true ↔ p.returncode ≠ 0) ∧
    (p.returncode = 0 ↔ exec_in_sandbox cmd p = .ok p.stdout) ∧
    (∃ s, run_prompt parse lines rc = .ok s) := by
  refine ⟨?_, ?_, ⟨_, rfl⟩⟩
  · unfold exec_in_sandbox isFailure
    by_cases hz : p.returncode = 0 <;> simp [hz]
  · unfold exec_in_sandbox
    by_cases hz : p.returncode = 0 <;> simp [hz]

/-- Claim C9 as stated is false: on the concrete stream holding a single
result-typed event, run_prompt returns the raw line, not the data of the
last result-typed event as the spec describes. -/
theorem C9_counterexample :
    ¬ (∀ (parse : String → Option GrokEvent) (lines : List String)
        (rc : Int),
        run_prompt parse lines rc = .ok (specStreamFinalText parse lines)) := by
  intro h
  have h1 := h parseDemo ["eventR"] 0
  have h2 : run_prompt parseDemo ["eventR"] 0 = .ok "eventR" := rfl
  have h3 : specStreamFinalText parseDemo ["eventR"] = "done" := rfl
  rw [h2, h3] at h1
  exact absurd (Except.ok.inj h1) (by decide)

/-- Claim C9 (amended): the final text returned by run_prompt is the
newline-join of the data of all text-typed events in order, or, if no
text-typed event is emitted, the raw concatenated output of the stream;
result-typed events receive no special treatment. -/
theorem C9_final_text (parse : String → Option GrokEvent)
    (lines : List String) (rc : Int) :
    run_prompt parse lines rc = .ok
      (if (textEvents parse lines).isEmpty
       then String.intercalate "\n" (keptLines lines)
       else String.intercalate "\n" (textEvents parse lines)) :=
  run_prompt_characterization parse lines rc

/-- Claim C10: a line that is not valid JSON does not abort run_prompt:
the call still returns a result, the malformed line contributes no text
event, and the returned text is built from the remaining well-formed text
events, falling back to the raw output (which keeps the malformed line)
when there are none. -/
theorem C10_malformed_line_tolerated (parse : String → Option GrokEvent)
    (pre post : List String) (bad : String) (rc : Int)
    (hbad : parse (pyStrip bad) = none) :
    (∃ s, run_prompt parse (pre ++ bad :: post) rc = .ok s) ∧
    textEvents parse (pre ++ bad :: post) = textEvents parse (pre ++ post) ∧
    run_prompt parse (pre ++ bad :: post) rc = .ok
      (if (textEvents parse (pre ++ post)).isEmpty
       then String.intercalate "\n" (keptLines (pre ++ bad :: post))
       else String.intercalate "\n" (textEvents parse (pre ++ post))) := by
  have hte : textEvents parse (pre ++ bad :: post) =
      textEvents parse (pre ++ post) := by
    have hsplit : pre ++ bad :: post = pre ++ [bad] ++ post := by simp
    rw [hsplit, textEvents_append, textEvents_append,
      textEvents_single_malformed parse bad hbad, textEvents_append]
    simp
  refine ⟨⟨_, rfl⟩, hte, ?_⟩
  rw [run_prompt_characterization parse (pre ++ bad :: post) rc, hte]

/-- Witness: C10 on a concrete stream with a malformed middle line
between two text events. -/
theorem C10_witness :
    (∃ s, run_prompt parseDemo
      (["eventT1"] ++ "garbage" :: ["eventT2"]) 0 = .ok s) ∧
    textEvents parseDemo (["eventT1"] ++ "garbage" :: ["eventT2"]) =
      textEvents parseDemo (["eventT1"] ++ ["eventT2"]) ∧
    run_prompt parseDemo (["eventT1"] ++ "garbage" :: ["eventT2"]) 0 = .ok
      (if (textEvents parseDemo (["eventT1"] ++ ["eventT2"])).isEmpty
       then String.intercalate "\n"
         (keptLines (["eventT1"] ++ "garbage" :: ["eventT2"]))
       else String.intercalate "\n"
         (textEvents parseDemo (["eventT1"] ++ ["eventT2"]))) :=
  C10_malformed_line_tolerated parseDemo ["eventT1"] ["eventT2"] "garbage" 0
    rfl
